import Mathlib

/-!
Shallow embedding of the password generator repository
(`src/passwordGenerator.js`, `src/passwordUtils.js`, `src/cli.js`).

Conventions of the embedding:
* JS numbers that hold lengths are embedded as `ℚ` (the values that occur,
  integers and the non-integer inputs the validation must classify, are all
  exactly representable); counts are embedded as `Int`.
* `crypto.getRandomValues` is embedded as a stream `secure : Nat → Nat` of
  draws (each draw is used only modulo the pool size, as on line 57 of the
  source); the "crypto unavailable" branch is not taken because the stream is
  always supplied.
* `Math.random()` is embedded as a stream `mathRandom : Nat → ℚ` of draws;
  the JS contract is that each draw lies in `[0, 1)`, stated as `mathRandomOk`.
  Draws are consumed left to right exactly where the source calls
  `Math.random()` (two per executed repair, position first).
* A JS options object with possibly-missing fields is `GenOptionsPartial`
  (`none` = the field is absent / `undefined`); destructuring-with-defaults
  (source lines 27–33) is `resolve`.  Note that `_ensureCharacterVariety`
  receives the *raw* options object (source line 62), so an absent field is
  falsy there even though `resolve` defaults it to `true`.
* Thrown JS errors become `Except GenError`: the two validation throws are
  `GenError.invalidRequest` with the source's message, and the `RangeError`
  that `new Array(length)` / `new Uint32Array(length)` raise on a non-integer
  length is `GenError.rangeError`.
-/

/-- `this.characterSets.lowercase` (source line 9). -/
def characterSets_lowercase : List Char := "abcdefghijklmnopqrstuvwxyz".toList

/-- `this.characterSets.uppercase` (source line 10). -/
def characterSets_uppercase : List Char := "ABCDEFGHIJKLMNOPQRSTUVWXYZ".toList

/-- `this.characterSets.numbers` (source line 11). -/
def characterSets_numbers : List Char := "0123456789".toList

/-- `this.characterSets.symbols` (source line 12): `!@#$%^&*()_+-=[]{}|;:,.<>?`. -/
def characterSets_symbols : List Char := "!@#$%^&*()_+-=[]\x7b\x7d|;:,.<>?".toList

/-- A JS options object: `none` models an absent (`undefined`) field. -/
structure GenOptionsPartial where
  length : Option ℚ := none
  lowercase : Option Bool := none
  uppercase : Option Bool := none
  numbers : Option Bool := none
  symbols : Option Bool := none
deriving Repr, DecidableEq

/-- The options after destructuring with defaults (source lines 27–33). -/
structure GenOptions where
  length : ℚ
  lowercase : Bool
  uppercase : Bool
  numbers : Bool
  symbols : Bool
deriving Repr, DecidableEq

/-- Destructuring with defaults: `length = 12`, all four classes `true`
(source lines 27–33). -/
def resolve (o : GenOptionsPartial) : GenOptions :=
  { length := o.length.getD 12
    lowercase := o.lowercase.getD true
    uppercase := o.uppercase.getD true
    numbers := o.numbers.getD true
    symbols := o.symbols.getD true }

/-- JS truthiness of a possibly-absent boolean field: `undefined` is falsy,
so only `some true` is truthy.  Used where the source reads the raw options
object (`_ensureCharacterVariety`, source lines 91–94). -/
def truthy (b : Option Bool) : Bool := b = some true

/-- Errors surfaced by the embedded generator. -/
inductive GenError where
  /-- a `throw new Error(msg)` from `_validateOptions` (source lines 74, 79) -/
  | invalidRequest (msg : String)
  /-- the `RangeError` raised by `new Array(length)` on a non-integer length -/
  | rangeError
deriving Repr, DecidableEq

/-- `_validateOptions` (source lines 72–81): rejects `length < 4 || length > 128`,
then rejects when no character option is truthy.  Returns the thrown error,
or `none` when validation passes. -/
def validateOptions (length : ℚ) (o : GenOptions) : Option GenError :=
  if length < 4 ∨ length > 128 then
    some (GenError.invalidRequest "Password length must be between 4 and 128 characters")
  else if ¬ (o.lowercase || o.uppercase || o.numbers || o.symbols) then
    some (GenError.invalidRequest "At least one character type must be selected")
  else
    none

/-- The character pool (source lines 39–43): concatenation of the alphabets of
the enabled classes, in source order. -/
def buildPool (o : GenOptions) : List Char :=
  (if o.lowercase then characterSets_lowercase else []) ++
  (if o.uppercase then characterSets_uppercase else []) ++
  (if o.numbers then characterSets_numbers else []) ++
  (if o.symbols then characterSets_symbols else [])

/-- `Math.floor(r * n)` for a `Math.random()` result `r`, as a `Nat`
(source lines 101–102). -/
def mathFloorMul (r : ℚ) (n : Nat) : Nat := (Int.floor (r * n)).toNat

/-- The ordered list of character sets whose presence `_ensureCharacterVariety`
enforces (source lines 90–94).  It reads the *raw* options object, so an
absent field selects nothing. -/
def selectedSets (raw : GenOptionsPartial) : List (List Char) :=
  (if truthy raw.lowercase then [characterSets_lowercase] else []) ++
  (if truthy raw.uppercase then [characterSets_uppercase] else []) ++
  (if truthy raw.numbers then [characterSets_numbers] else []) ++
  (if truthy raw.symbols then [characterSets_symbols] else [])

/-- One iteration of the `selectedSets.forEach` body (source lines 97–105):
if no character of `charSet` is present, overwrite the position
`Math.floor(Math.random() * passwordArray.length)` with the character
`charSet[Math.floor(Math.random() * charSet.length)]`.  The state carries the
array together with the index of the next unconsumed `Math.random()` draw. -/
def varietyStep (mathRandom : Nat → ℚ) (st : List Char × Nat) (charSet : List Char) :
    List Char × Nat :=
  if st.1.any (fun c => charSet.contains c) then st
  else
    (st.1.set (mathFloorMul (mathRandom st.2) st.1.length)
       (charSet.getD (mathFloorMul (mathRandom (st.2 + 1)) charSet.length) 'a'),
     st.2 + 2)

/-- `_ensureCharacterVariety` (source lines 89–106). -/
def ensureCharacterVariety (arr : List Char) (raw : GenOptionsPartial)
    (mathRandom : Nat → ℚ) : List Char :=
  ((selectedSets raw).foldl (varietyStep mathRandom) (arr, 0)).1

/-- The initial draw (source lines 56–59): position `i` gets
`characterPool[randomValues[i] % characterPool.length]`. -/
def initialDraw (pool : List Char) (secure : Nat → Nat) (n : Nat) : List Char :=
  (List.range n).map (fun i => pool.getD (secure i % pool.length) 'a')

/-- `generatePassword` (source lines 26–65).  After validation the source runs
`new Array(length)` and `new Uint32Array(length)` (lines 46–47), which raise a
`RangeError` when `length` is not an integer; validation has already bounded
an integer length into `[4, 128]`, so `toNat` of its numerator is exact. -/
def generatePassword (raw : GenOptionsPartial) (secure : Nat → Nat)
    (mathRandom : Nat → ℚ) : Except GenError String :=
  match validateOptions (resolve raw).length (resolve raw) with
  | some e => Except.error e
  | none =>
    if (resolve raw).length.den ≠ 1 then Except.error GenError.rangeError
    else
      Except.ok (String.mk (ensureCharacterVariety
        (initialDraw (buildPool (resolve raw)) secure (resolve raw).length.num.toNat)
        raw mathRandom))

/-- `generateMultiplePasswords` (source lines 114–120): `count` iterations of
`generatePassword`, with no validation of `count`; a thrown error aborts the
whole call.  Iteration `i` receives its own fresh randomness `rnds i`
(each source call fills a fresh `Uint32Array` and makes fresh `Math.random()`
calls).  A JS `for` loop with a non-positive bound runs zero iterations,
hence `count.toNat`. -/
def generateMultiplePasswords (count : Int) (raw : GenOptionsPartial)
    (rnds : Nat → (Nat → Nat) × (Nat → ℚ)) : Except GenError (List String) :=
  (List.range count.toNat).mapM (fun i => generatePassword raw (rnds i).1 (rnds i).2)

/-- The regex character classes of `calculateStrength` (source lines 134–137):
`[a-z]`. -/
def hasLowercase (password : String) : Bool :=
  password.toList.any (fun c => 'a' ≤ c ∧ c ≤ 'z')

/-- `[A-Z]` (source line 135). -/
def hasUppercase (password : String) : Bool :=
  password.toList.any (fun c => 'A' ≤ c ∧ c ≤ 'Z')

/-- `\d` (source line 136). -/
def hasNumbers (password : String) : Bool :=
  password.toList.any (fun c => '0' ≤ c ∧ c ≤ '9')

/-- The symbol regex of source line 137 lists exactly the characters of
`characterSets.symbols`. -/
def hasSymbols (password : String) : Bool :=
  password.toList.any (fun c => characterSets_symbols.contains c)

/-- `varietyCount` (source line 139):
`[hasLowercase, hasUppercase, hasNumbers, hasSymbols].filter(Boolean).length`. -/
def varietyCount (password : String) : Nat :=
  ([hasLowercase password, hasUppercase password, hasNumbers password,
    hasSymbols password].filter (fun b => b)).length

/-- `calculateStrength` (source lines 127–143), as in the source:
length score `Math.min(password.length * 2, 40)` plus `varietyCount * 15`,
then `Math.min(score, 100)`. -/
def calculateStrength (password : String) : Nat :=
  min (min (password.length * 2) 40 + varietyCount password * 15) 100

/-- Restatement of the strength formula from the SPEC's words, for comparison
with `calculateStrength`: `min(len(s) * 2, 40)` plus 15 for each of the four
classes where a symbol is **any non-alphanumeric** character, clamped to
`[0, 100]`. -/
def specStrengthFormula (s : String) : Nat :=
  let isAlnum : Char → Bool := fun c =>
    ('a' ≤ c ∧ c ≤ 'z') ∨ ('A' ≤ c ∧ c ≤ 'Z') ∨ ('0' ≤ c ∧ c ≤ '9')
  let bonus : Nat :=
    (if s.toList.any (fun c => 'a' ≤ c ∧ c ≤ 'z') then 15 else 0) +
    (if s.toList.any (fun c => 'A' ≤ c ∧ c ≤ 'Z') then 15 else 0) +
    (if s.toList.any (fun c => '0' ≤ c ∧ c ≤ '9') then 15 else 0) +
    (if s.toList.any (fun c => ¬ isAlnum c) then 15 else 0)
  min (min (s.length * 2) 40 + bonus) 100

/-- Modelled from the spec: `getStrengthDescription` is called by `src/cli.js`
(lines 94–95) on the result of `calculateStrength`, but its definition is not
among the source files.  The spec fixes the tier mapping with inclusive lower
bounds: `>=80` → "Very Strong", `>=60` → "Strong", `>=40` → "Good",
`>=20` → "Weak", else "Very Weak". -/
def getStrengthDescription (score : Nat) : String :=
  if 80 ≤ score then "Very Strong"
  else if 60 ≤ score then "Strong"
  else if 40 ≤ score then "Good"
  else if 20 ≤ score then "Weak"
  else "Very Weak"

/-- A request is valid when the destructured length is an integer in `[4, 128]`
and at least one class is enabled after defaulting. -/
def validRequest (raw : GenOptionsPartial) : Prop :=
  4 ≤ (resolve raw).length ∧ (resolve raw).length ≤ 128 ∧
    (resolve raw).length.den = 1 ∧
    ((resolve raw).lowercase || (resolve raw).uppercase ||
      (resolve raw).numbers || (resolve raw).symbols) = true

instance (raw : GenOptionsPartial) : Decidable (validRequest raw) := by
  unfold validRequest; infer_instance

/-- The JS contract of `Math.random()`: every draw lies in `[0, 1)`. -/
def mathRandomOk (mathRandom : Nat → ℚ) : Prop :=
  ∀ k, 0 ≤ mathRandom k ∧ mathRandom k < 1

/-- An options object with all four classes explicitly enabled and length 4
(so the repair pass is active for every class). -/
def rawAllTrue4 : GenOptionsPartial :=
  { length := some 4, lowercase := some true, uppercase := some true,
    numbers := some true, symbols := some true }

/-- A `Math.random()` draw sequence within the contract `[0, 1)` under which
the numbers-repair overwrites the position that the uppercase-repair had just
fixed. -/
def collidingDraws : Nat → ℚ := fun k => if k = 4 then mkRat 1 4 else 0

/-- The constant `Math.random()` draw sequence 1/2, also within `[0, 1)`. -/
def halfDraws : Nat → ℚ := fun _ => mkRat 1 2

/-- An options object whose length is the non-integer 9/2 (all other fields
absent, hence defaulted). -/
def rawHalfLen : GenOptionsPartial := { length := some (mkRat 9 2) }

/-- A per-iteration randomness family whose every iteration draws zeros. -/
def constRnds : Nat → (Nat → Nat) × (Nat → ℚ) := fun _ => (fun _ => 0, fun _ => 0)

instance {ε α : Type} [DecidableEq ε] [DecidableEq α] : DecidableEq (Except ε α) :=
  fun x y =>
    match x, y with
    | Except.ok a, Except.ok b =>
      if h : a = b then isTrue (by rw [h]) else isFalse (fun hc => h (by cases hc; rfl))
    | Except.error a, Except.error b =>
      if h : a = b then isTrue (by rw [h]) else isFalse (fun hc => h (by cases hc; rfl))
    | Except.ok _, Except.error _ => isFalse (fun hc => by cases hc)
    | Except.error _, Except.ok _ => isFalse (fun hc => by cases hc)

theorem mathFloorMul_lt {r : ℚ} {n : Nat} (h0 : 0 ≤ r) (h1 : r < 1)
    (hn : 0 < n) : mathFloorMul r n < n := by
  unfold mathFloorMul
  have hcast : (0 : ℚ) < (n : ℚ) := by exact_mod_cast hn
  have hfl : Int.floor (r * (n : ℚ)) < (n : Int) := by
    rw [Int.floor_lt]
    push_cast
    calc r * (n : ℚ) < 1 * (n : ℚ) := mul_lt_mul_of_pos_right h1 hcast
      _ = (n : ℚ) := one_mul _
  omega

theorem getD_mem {l : List Char} {n : Nat} {d : Char} (h : n < l.length) :
    l.getD n d ∈ l := by
  rw [List.getD_eq_getElem l d h]
  exact List.getElem_mem h

theorem varietyStep_eq (mathRandom : Nat → ℚ) (arr : List Char) (k : Nat)
    (s : List Char) :
    varietyStep mathRandom (arr, k) s =
      if (arr.any fun c => s.contains c) = true then (arr, k)
      else (arr.set (mathFloorMul (mathRandom k) arr.length)
              (s.getD (mathFloorMul (mathRandom (k + 1)) s.length) 'a'), k + 2) := rfl

theorem varietyFold_length (mathRandom : Nat → ℚ) (sets : List (List Char)) :
    ∀ (arr : List Char) (k : Nat),
      ((sets.foldl (varietyStep mathRandom) (arr, k)).1).length = arr.length := by
  induction sets with
  | nil => intro arr k; rfl
  | cons s ss ih =>
    intro arr k
    rw [List.foldl_cons, varietyStep_eq]
    by_cases h : (arr.any fun c => s.contains c) = true
    · rw [if_pos h]
      exact ih arr k
    · rw [if_neg h, ih]
      simp

theorem ensureCharacterVariety_length (arr : List Char) (raw : GenOptionsPartial)
    (mathRandom : Nat → ℚ) :
    (ensureCharacterVariety arr raw mathRandom).length = arr.length :=
  varietyFold_length mathRandom (selectedSets raw) arr 0

theorem varietyFold_mem (pool : List Char) (mathRandom : Nat → ℚ)
    (hins : mathRandomOk mathRandom) :
    ∀ (sets : List (List Char)), (∀ s ∈ sets, s ≠ [] ∧ ∀ c ∈ s, c ∈ pool) →
      ∀ (arr : List Char) (k : Nat), (∀ c ∈ arr, c ∈ pool) →
        ∀ c ∈ (sets.foldl (varietyStep mathRandom) (arr, k)).1, c ∈ pool := by
  intro sets
  induction sets with
  | nil => intro _ arr k harr; exact harr
  | cons s ss ih =>
    intro hsets arr k harr
    have hss : ∀ t ∈ ss, t ≠ [] ∧ ∀ c ∈ t, c ∈ pool := fun t ht =>
      hsets t (List.mem_cons_of_mem s ht)
    have hs := hsets s (List.mem_cons_self s ss)
    rw [List.foldl_cons, varietyStep_eq]
    by_cases h : (arr.any fun c => s.contains c) = true
    · rw [if_pos h]
      exact ih hss arr k harr
    · rw [if_neg h]
      apply ih hss
      intro c hc
      rcases List.mem_or_eq_of_mem_set hc with hmem | heq
      · exact harr c hmem
      · subst heq
        have hlen : 0 < s.length := List.length_pos.mpr hs.1
        exact hs.2 _ (getD_mem (mathFloorMul_lt (hins (k + 1)).1 (hins (k + 1)).2 hlen))

theorem initialDraw_length (pool : List Char) (secure : Nat → Nat) (n : Nat) :
    (initialDraw pool secure n).length = n := by
  simp [initialDraw]

theorem initialDraw_mem (pool : List Char) (secure : Nat → Nat) (n : Nat)
    (hpool : pool ≠ []) : ∀ c ∈ initialDraw pool secure n, c ∈ pool := by
  intro c hc
  unfold initialDraw at hc
  rw [List.mem_map] at hc
  obtain ⟨i, _, rfl⟩ := hc
  have hlen : 0 < pool.length := List.length_pos.mpr hpool
  exact getD_mem (Nat.mod_lt _ hlen)

theorem generatePassword_spec (raw : GenOptionsPartial) (secure : Nat → Nat)
    (mathRandom : Nat → ℚ) :
    generatePassword raw secure mathRandom =
      if (resolve raw).length < 4 ∨ (resolve raw).length > 128 then
        Except.error (GenError.invalidRequest
          "Password length must be between 4 and 128 characters")
      else if ((resolve raw).lowercase || (resolve raw).uppercase ||
               (resolve raw).numbers || (resolve raw).symbols) = false then
        Except.error (GenError.invalidRequest
          "At least one character type must be selected")
      else if (resolve raw).length.den ≠ 1 then
        Except.error GenError.rangeError
      else
        Except.ok (String.mk (ensureCharacterVariety
          (initialDraw (buildPool (resolve raw)) secure (resolve raw).length.num.toNat)
          raw mathRandom)) := by
  unfold generatePassword validateOptions
  by_cases h1 : (resolve raw).length < 4 ∨ (resolve raw).length > 128
  · simp [h1]
  · by_cases h2 : ((resolve raw).lowercase || (resolve raw).uppercase ||
        (resolve raw).numbers || (resolve raw).symbols) = true
    · simp [h1, h2]
    · rw [Bool.not_eq_true] at h2
      simp [h1, h2]

theorem generatePassword_ok (raw : GenOptionsPartial) (secure : Nat → Nat)
    (mathRandom : Nat → ℚ) (h : validRequest raw) :
    generatePassword raw secure mathRandom =
      Except.ok (String.mk (ensureCharacterVariety
        (initialDraw (buildPool (resolve raw)) secure (resolve raw).length.num.toNat)
        raw mathRandom)) := by
  obtain ⟨h1, h2, h3, h4⟩ := h
  rw [generatePassword_spec, if_neg (by push_neg; exact ⟨h1, h2⟩),
    if_neg (by simp [h4]), if_neg (by simp [h3])]

theorem ratNumToNat_cast (q : ℚ) (hq : q.den = 1) (h0 : (0 : ℚ) ≤ q) :
    ((q.num.toNat : ℚ)) = q := by
  have hnum : (q.num : ℚ) = q := (Rat.den_eq_one_iff q).mp hq
  have h0n : 0 ≤ q.num := Rat.num_nonneg.mpr h0
  calc ((q.num.toNat : ℚ)) = ((q.num : ℚ)) := by exact_mod_cast Int.toNat_of_nonneg h0n
    _ = q := hnum

theorem buildPool_ne_nil (o : GenOptions)
    (h : (o.lowercase || o.uppercase || o.numbers || o.symbols) = true) :
    buildPool o ≠ [] := by
  cases hl : o.lowercase <;> cases hu : o.uppercase <;> cases hn : o.numbers <;>
      cases hs : o.symbols <;>
    first
      | (exfalso; rw [hl, hu, hn, hs] at h; exact Bool.noConfusion h)
      | (unfold buildPool; rw [hl, hu, hn, hs]; decide)

theorem string_mk_length (l : List Char) : (String.mk l).length = l.length := rfl

theorem truthy_some_true {b : Option Bool} (h : truthy b = true) : b = some true :=
  of_decide_eq_true h

theorem mem_if_singleton {t : Prop} [Decidable t] {X s : List Char}
    (h : s ∈ (if t then [X] else [])) : t ∧ s = X := by
  by_cases ht : t
  · rw [if_pos ht] at h
    rw [List.mem_singleton] at h
    exact ⟨ht, h⟩
  · rw [if_neg ht] at h
    exact absurd h (List.not_mem_nil s)

theorem mem_buildPool_lowercase {o : GenOptions} (h : o.lowercase = true)
    {c : Char} (hc : c ∈ characterSets_lowercase) : c ∈ buildPool o := by
  unfold buildPool
  rw [h]
  simp only [List.mem_append]
  tauto

theorem mem_buildPool_uppercase {o : GenOptions} (h : o.uppercase = true)
    {c : Char} (hc : c ∈ characterSets_uppercase) : c ∈ buildPool o := by
  unfold buildPool
  rw [h]
  simp only [List.mem_append]
  tauto

theorem mem_buildPool_numbers {o : GenOptions} (h : o.numbers = true)
    {c : Char} (hc : c ∈ characterSets_numbers) : c ∈ buildPool o := by
  unfold buildPool
  rw [h]
  simp only [List.mem_append]
  tauto

theorem mem_buildPool_symbols {o : GenOptions} (h : o.symbols = true)
    {c : Char} (hc : c ∈ characterSets_symbols) : c ∈ buildPool o := by
  unfold buildPool
  rw [h]
  simp only [List.mem_append]
  tauto

theorem resolve_truthy_lowercase {raw : GenOptionsPartial}
    (h : truthy raw.lowercase = true) : (resolve raw).lowercase = true := by
  unfold resolve
  rw [truthy_some_true h]
  rfl

theorem resolve_truthy_uppercase {raw : GenOptionsPartial}
    (h : truthy raw.uppercase = true) : (resolve raw).uppercase = true := by
  unfold resolve
  rw [truthy_some_true h]
  rfl

theorem resolve_truthy_numbers {raw : GenOptionsPartial}
    (h : truthy raw.numbers = true) : (resolve raw).numbers = true := by
  unfold resolve
  rw [truthy_some_true h]
  rfl

theorem resolve_truthy_symbols {raw : GenOptionsPartial}
    (h : truthy raw.symbols = true) : (resolve raw).symbols = true := by
  unfold resolve
  rw [truthy_some_true h]
  rfl

theorem selectedSets_sound (raw : GenOptionsPartial) :
    ∀ s ∈ selectedSets raw, s ≠ [] ∧ ∀ c ∈ s, c ∈ buildPool (resolve raw) := by
  intro s hs
  unfold selectedSets at hs
  simp only [List.mem_append] at hs
  rcases hs with ((h | h) | h) | h
  · obtain ⟨ht, rfl⟩ := mem_if_singleton h
    exact ⟨by decide, fun c hc =>
      mem_buildPool_lowercase (resolve_truthy_lowercase ht) hc⟩
  · obtain ⟨ht, rfl⟩ := mem_if_singleton h
    exact ⟨by decide, fun c hc =>
      mem_buildPool_uppercase (resolve_truthy_uppercase ht) hc⟩
  · obtain ⟨ht, rfl⟩ := mem_if_singleton h
    exact ⟨by decide, fun c hc =>
      mem_buildPool_numbers (resolve_truthy_numbers ht) hc⟩
  · obtain ⟨ht, rfl⟩ := mem_if_singleton h
    exact ⟨by decide, fun c hc =>
      mem_buildPool_symbols (resolve_truthy_symbols ht) hc⟩

theorem mapM_ok_of_ok {α β : Type} (l : List α) (f : α → Except GenError β)
    (g : α → β) (h : ∀ a ∈ l, f a = Except.ok (g a)) :
    l.mapM f = Except.ok (l.map g) := by
  induction l with
  | nil => rfl
  | cons a t ih =>
    rw [List.mapM_cons, h a (List.mem_cons_self a t),
      ih (fun b hb => h b (List.mem_cons_of_mem a hb))]
    rfl

section CoverageCounterexamples

attribute [local semireducible] Rat.mul

/-- C1: the class-coverage guarantee does NOT hold for every sequence of
random draws.  With all four classes explicitly enabled and length 4 (equal
to the number of enabled classes), the request is valid, every draw is within
the random sources' contracts, yet the generated password "0!aa" contains no
uppercase character: the initial draws are all lowercase, and the
numbers-repair then overwrites the position the uppercase-repair had just
fixed. -/
theorem uppercase_coverage_fails_on_colliding_repairs :
    validRequest rawAllTrue4 ∧
    mathRandomOk collidingDraws ∧
    generatePassword rawAllTrue4 (fun _ => 0) collidingDraws = Except.ok "0!aa" ∧
    "0!aa".toList.all (fun c => !(characterSets_uppercase.contains c)) = true := by
  refine ⟨by decide, ?_, by decide, by decide⟩
  intro k
  by_cases h : k = 4
  · rw [show collidingDraws k = mkRat 1 4 from by rw [show collidingDraws k = if k = 4 then mkRat 1 4 else 0 from rfl, if_pos h]]
    exact ⟨by decide, by decide⟩
  · rw [show collidingDraws k = 0 from by rw [show collidingDraws k = if k = 4 then mkRat 1 4 else 0 from rfl, if_neg h]]
    exact ⟨by decide, by decide⟩

/-- C2: the repair step's random decisions come from `Math.random()`, not the
secure source: holding the secure stream fixed and changing only the
`Math.random()` stream (both streams within the `[0, 1)` contract) changes
the returned password, so the final secret depends on the non-cryptographic
generator. -/
theorem repair_randomness_not_from_secure_source :
    mathRandomOk (fun _ => 0) ∧ mathRandomOk halfDraws ∧
    generatePassword rawAllTrue4 (fun _ => 0) (fun _ => 0) = Except.ok "!aaa" ∧
    generatePassword rawAllTrue4 (fun _ => 0) halfDraws = Except.ok "aa=a" ∧
    ("!aaa" : String) ≠ "aa=a" := by
  refine ⟨?_, ?_, by decide, by decide, by decide⟩
  · intro k
    show (0 : ℚ) ≤ 0 ∧ (0 : ℚ) < 1
    exact ⟨by decide, by decide⟩
  · intro k
    show 0 ≤ mkRat 1 2 ∧ mkRat 1 2 < 1
    exact ⟨by decide, by decide⟩

end CoverageCounterexamples

/-- C3 counterexample: length 9/2 lies within [4, 128] but is not an integer;
the claim says such a request fails with InvalidRequest, but the code's
validation passes it and the failure is the array-allocation RangeError
instead. -/
theorem nonInteger_length_gives_rangeError :
    generatePassword rawHalfLen (fun _ => 0) (fun _ => 0) =
        Except.error GenError.rangeError ∧
    4 ≤ mkRat 9 2 ∧ mkRat 9 2 ≤ 128 ∧ (mkRat 9 2).den ≠ 1 := by
  exact ⟨by decide, by decide, by decide, by decide⟩

/-- C3 (amended): an InvalidRequest error occurs exactly when the resolved
length is below 4 or above 128 or no character class is enabled; every valid
request (integer length in [4, 128] and at least one enabled class) succeeds
with a password.  A non-integer length inside the bounds instead yields a
RangeError (see the counterexample). -/
theorem invalidRequest_characterisation (raw : GenOptionsPartial)
    (secure : Nat → Nat) (mathRandom : Nat → ℚ) :
    ((∃ msg, generatePassword raw secure mathRandom =
        Except.error (GenError.invalidRequest msg)) ↔
      ((resolve raw).length < 4 ∨ (resolve raw).length > 128 ∨
        ((resolve raw).lowercase || (resolve raw).uppercase ||
         (resolve raw).numbers || (resolve raw).symbols) = false)) ∧
    (validRequest raw →
      ∃ p, generatePassword raw secure mathRandom = Except.ok p) := by
  constructor
  · rw [generatePassword_spec]
    by_cases h1 : (resolve raw).length < 4 ∨ (resolve raw).length > 128
    · rw [if_pos h1]
      constructor
      · intro _
        rcases h1 with h | h
        · exact Or.inl h
        · exact Or.inr (Or.inl h)
      · intro _
        exact ⟨_, rfl⟩
    · rw [if_neg h1]
      push_neg at h1
      by_cases h2 : ((resolve raw).lowercase || (resolve raw).uppercase ||
          (resolve raw).numbers || (resolve raw).symbols) = false
      · rw [if_pos h2]
        constructor
        · intro _
          exact Or.inr (Or.inr h2)
        · intro _
          exact ⟨_, rfl⟩
      · rw [if_neg h2]
        constructor
        · intro hex
          exfalso
          by_cases h3 : (resolve raw).length.den ≠ 1
          · rw [if_pos h3] at hex
            obtain ⟨msg, hmsg⟩ := hex
            simp at hmsg
          · rw [if_neg h3] at hex
            obtain ⟨msg, hmsg⟩ := hex
            simp at hmsg
        · intro hcon
          exfalso
          rcases hcon with h | h | h
          · exact absurd h (not_lt.mpr h1.1)
          · exact absurd h (not_lt.mpr h1.2)
          · exact h2 h
  · intro h
    exact ⟨_, generatePassword_ok raw secure mathRandom h⟩

/-- Witness for the amended C3 theorem at a concrete valid request. -/
theorem invalidRequest_characterisation_witness :
    validRequest rawAllTrue4 ∧
    ∃ p, generatePassword rawAllTrue4 (fun _ => 0) (fun _ => 0) = Except.ok p :=
  ⟨by decide,
    (invalidRequest_characterisation rawAllTrue4 (fun _ => 0) (fun _ => 0)).2
      (by decide)⟩

/-- C4: for every valid request and all draws within the random sources'
contracts, generation succeeds and the returned password has exactly
`request.length` characters. -/
theorem generated_length_eq (raw : GenOptionsPartial) (secure : Nat → Nat)
    (mathRandom : Nat → ℚ) (h : validRequest raw)
    (hins : mathRandomOk mathRandom) :
    ∃ p : String, generatePassword raw secure mathRandom = Except.ok p ∧
      (p.length : ℚ) = (resolve raw).length := by
  have _ := hins
  refine ⟨_, generatePassword_ok raw secure mathRandom h, ?_⟩
  rw [string_mk_length, ensureCharacterVariety_length, initialDraw_length]
  exact ratNumToNat_cast _ h.2.2.1 (le_trans (by norm_num) h.1)

/-- Witness for C4 at a concrete valid request and concrete draw streams. -/
theorem generated_length_eq_witness :
    validRequest rawAllTrue4 ∧ mathRandomOk (fun _ => 0) ∧
    ∃ p : String,
      generatePassword rawAllTrue4 (fun _ => 0) (fun _ => 0) = Except.ok p ∧
      (p.length : ℚ) = (resolve rawAllTrue4).length :=
  ⟨by decide,
   fun _ => ⟨le_refl 0, by norm_num⟩,
   generated_length_eq rawAllTrue4 (fun _ => 0) (fun _ => 0) (by decide)
     (fun _ => ⟨le_refl 0, by norm_num⟩)⟩

/-- C5: for every valid request and all draws within the random sources'
contracts, generation succeeds and every character of the returned password
belongs to the pool, i.e. the union of the alphabets of the enabled classes. -/
theorem generated_chars_in_pool (raw : GenOptionsPartial) (secure : Nat → Nat)
    (mathRandom : Nat → ℚ) (h : validRequest raw)
    (hins : mathRandomOk mathRandom) :
    ∃ p : String, generatePassword raw secure mathRandom = Except.ok p ∧
      ∀ c ∈ p.toList, c ∈ buildPool (resolve raw) := by
  refine ⟨_, generatePassword_ok raw secure mathRandom h, ?_⟩
  intro c hc
  have hpool : buildPool (resolve raw) ≠ [] := buildPool_ne_nil _ h.2.2.2
  exact varietyFold_mem (buildPool (resolve raw)) mathRandom hins
    (selectedSets raw) (selectedSets_sound raw) _ 0
    (initialDraw_mem _ secure _ hpool) c hc

/-- Witness for C5 at a concrete valid request and concrete draw streams. -/
theorem generated_chars_in_pool_witness :
    validRequest rawAllTrue4 ∧ mathRandomOk (fun _ => 0) ∧
    ∃ p : String,
      generatePassword rawAllTrue4 (fun _ => 0) (fun _ => 0) = Except.ok p ∧
      ∀ c ∈ p.toList, c ∈ buildPool (resolve rawAllTrue4) :=
  ⟨by decide,
   fun _ => ⟨le_refl 0, by norm_num⟩,
   generated_chars_in_pool rawAllTrue4 (fun _ => 0) (fun _ => 0) (by decide)
     (fun _ => ⟨le_refl 0, by norm_num⟩)⟩

/-- C6 counterexample: the character TILDE is non-alphanumeric but lies
outside the generator's symbol alphabet; `calculateStrength` gives it no
symbol bonus (score 2), while the claim's formula (symbol = any
non-alphanumeric) gives 17. -/
theorem tilde_gets_no_symbol_bonus :
    calculateStrength "~" = 2 ∧ specStrengthFormula "~" = 17 ∧
    calculateStrength "~" ≠ specStrengthFormula "~" := by
  exact ⟨by decide, by decide, by decide⟩

/-- C6 (amended): `calculateStrength s` equals `min(len(s) * 2, 40)` plus 15
points per present class — lowercase, uppercase, digit, and symbol, where a
symbol is a character of the generator's own symbol alphabet
`!@#$%^&*()_+-=[]\x7b\x7d|;:,.<>?` (NOT every non-alphanumeric character) —
clamped above by 100 (the sum is already nonnegative, so the result lies in
[0, 100]). -/
theorem calculateStrength_closed_form (s : String) :
    calculateStrength s =
      min (min (s.length * 2) 40 +
        ((if hasLowercase s then 15 else 0) + (if hasUppercase s then 15 else 0) +
         (if hasNumbers s then 15 else 0) + (if hasSymbols s then 15 else 0))) 100 ∧
    calculateStrength s ≤ 100 := by
  constructor
  · unfold calculateStrength varietyCount
    cases h1 : hasLowercase s <;> cases h2 : hasUppercase s <;>
      cases h3 : hasNumbers s <;> cases h4 : hasSymbols s <;>
      simp [List.filter]
  · exact min_le_right _ _

/-- C7: the tier label has inclusive lower bounds 80, 60, 40, 20 for
"Very Strong", "Strong", "Good", "Weak", with "Very Weak" below 20. -/
theorem strength_tier_thresholds (score : Nat) :
    (80 ≤ score → getStrengthDescription score = "Very Strong") ∧
    (60 ≤ score → score < 80 → getStrengthDescription score = "Strong") ∧
    (40 ≤ score → score < 60 → getStrengthDescription score = "Good") ∧
    (20 ≤ score → score < 40 → getStrengthDescription score = "Weak") ∧
    (score < 20 → getStrengthDescription score = "Very Weak") := by
  unfold getStrengthDescription
  refine ⟨fun h => ?_, fun h1 h2 => ?_, fun h1 h2 => ?_, fun h1 h2 => ?_,
    fun h => ?_⟩
  · rw [if_pos h]
  · rw [if_neg (by omega), if_pos h1]
  · rw [if_neg (by omega), if_neg (by omega), if_pos h1]
  · rw [if_neg (by omega), if_neg (by omega), if_neg (by omega), if_pos h1]
  · rw [if_neg (by omega), if_neg (by omega), if_neg (by omega),
      if_neg (by omega)]

/-- Witness for C7: one concrete score per tier. -/
theorem strength_tier_thresholds_witness :
    getStrengthDescription 85 = "Very Strong" ∧
    getStrengthDescription 60 = "Strong" ∧
    getStrengthDescription 41 = "Good" ∧
    getStrengthDescription 20 = "Weak" ∧
    getStrengthDescription 7 = "Very Weak" :=
  ⟨(strength_tier_thresholds 85).1 (by decide),
   (strength_tier_thresholds 60).2.1 (by decide) (by decide),
   (strength_tier_thresholds 41).2.2.1 (by decide) (by decide),
   (strength_tier_thresholds 20).2.2.2.1 (by decide) (by decide),
   (strength_tier_thresholds 7).2.2.2.2 (by decide)⟩

/-- C8 counterexample: count 0 lies outside [1, 50], yet
generateMultiplePasswords succeeds and returns the empty batch instead of
failing with InvalidRequest. -/
theorem count_zero_not_rejected :
    generateMultiplePasswords 0 rawAllTrue4 constRnds = Except.ok [] ∧
    ¬ (1 ≤ (0 : Int) ∧ (0 : Int) ≤ 50) :=
  ⟨rfl, by decide⟩

/-- C8 (amended): `generateMultiplePasswords` performs no validation of
`count` at all: for any count and any valid options it succeeds, returning
exactly `count.toNat` passwords (so 0 passwords for `count ≤ 0`), the i-th of
which is the result of an independent `generatePassword` call on the i-th
iteration's randomness. -/
theorem generateMultiple_count_calls (count : Int) (raw : GenOptionsPartial)
    (rnds : Nat → (Nat → Nat) × (Nat → ℚ)) (h : validRequest raw) :
    ∃ ps : List String, generateMultiplePasswords count raw rnds = Except.ok ps ∧
      ps.length = count.toNat ∧
      ∀ i (hi : i < ps.length),
        Except.ok (ps.get ⟨i, hi⟩) =
          generatePassword raw (rnds i).1 (rnds i).2 := by
  refine ⟨(List.range count.toNat).map (fun i =>
      String.mk (ensureCharacterVariety
        (initialDraw (buildPool (resolve raw)) (rnds i).1
          (resolve raw).length.num.toNat) raw (rnds i).2)), ?_, by simp, ?_⟩
  · exact mapM_ok_of_ok _ _ _
      (fun i _ => generatePassword_ok raw (rnds i).1 (rnds i).2 h)
  · intro i hi
    have hi2 : i < count.toNat := by simpa using hi
    rw [List.get_eq_getElem, List.getElem_map, List.getElem_range]
    exact (generatePassword_ok raw (rnds i).1 (rnds i).2 h).symm

/-- Witness for the amended C8 theorem at count 2 and a concrete request. -/
theorem generateMultiple_count_calls_witness :
    validRequest rawAllTrue4 ∧
    ∃ ps : List String,
      generateMultiplePasswords 2 rawAllTrue4 constRnds = Except.ok ps ∧
      ps.length = (2 : Int).toNat ∧
      ∀ i (hi : i < ps.length),
        Except.ok (ps.get ⟨i, hi⟩) =
          generatePassword rawAllTrue4 (constRnds i).1 (constRnds i).2 :=
  ⟨by decide, generateMultiple_count_calls 2 rawAllTrue4 constRnds (by decide)⟩

/-- C9: with the four class-presence facts held constant, calculateStrength
is monotonically non-decreasing in the length of the string. -/
theorem strength_monotone_in_length (s t : String)
    (h1 : hasLowercase s = hasLowercase t) (h2 : hasUppercase s = hasUppercase t)
    (h3 : hasNumbers s = hasNumbers t) (h4 : hasSymbols s = hasSymbols t)
    (hlen : s.length ≤ t.length) :
    calculateStrength s ≤ calculateStrength t := by
  unfold calculateStrength varietyCount
  rw [h1, h2, h3, h4]
  have hm : min (s.length * 2) 40 ≤ min (t.length * 2) 40 :=
    min_le_min (Nat.mul_le_mul_right 2 hlen) (le_refl 40)
  exact min_le_min (Nat.add_le_add_right hm _) (le_refl 100)

/-- Witness for C9: "ab" and "abc" contain exactly the same classes. -/
theorem strength_monotone_in_length_witness :
    calculateStrength "ab" ≤ calculateStrength "abc" :=
  strength_monotone_in_length "ab" "abc" (by decide) (by decide) (by decide)
    (by decide) (by decide)

/-- C10: with no options passed, destructuring yields length 12 (not 16) and
all four classes enabled, and generation succeeds with a password of exactly
12 characters, for every pair of random streams. -/
theorem default_options_generate (secure : Nat → Nat) (mathRandom : Nat → ℚ) :
    resolve {} = { length := 12, lowercase := true, uppercase := true,
                   numbers := true, symbols := true } ∧
    ∃ p : String, generatePassword {} secure mathRandom = Except.ok p ∧
      p.length = 12 := by
  refine ⟨rfl, _, generatePassword_ok {} secure mathRandom (by decide), ?_⟩
  rw [string_mk_length, ensureCharacterVariety_length, initialDraw_length]
  decide
